import Mathlib

set_option linter.unusedVariables false

/-
Verification development for the exploratory-statistics script
`statistics_and_trends.py`.

The script loads a CSV table with pandas, prints descriptive summaries,
renders three seaborn plots, computes four moments (mean, standard
deviation, skewness, excess kurtosis) of one numeric column, and prints a
classification of the distribution shape.

Modelling conventions of the shallow embedding:
- A Python float flowing through the program is either an exact rational
  value or NaN (`PyFloat`).  Every comparison mirrors IEEE semantics:
  any ordered comparison or equality test with NaN is false.
- A table cell of a numeric column is `Option ℚ`; `none` models a missing
  value (pandas stores it as NaN).
- The external square root used by the libraries for standard deviation
  and skewness is an abstract parameter `fsqrt : ℚ → ℚ`; no property of it
  is assumed, so every theorem holds for the ideal square root as well.
- Library calls keep their documented semantics: pandas `mean`/`std` skip
  missing values (`skipna=True`, `ddof=1`), scipy `skew`/`kurtosis`
  propagate NaN (`nan_policy="propagate"`, `fisher=True`, `bias=True`) and
  yield NaN on constant or empty data.
- The outcomes of the external calls that can fail for reasons outside the
  table values (reading `data.csv`, rendering a plot) are parameters of
  the environment `Env`; `main` is a function from the environment to the
  list of observable events it emits plus an optional uncaught exception.
-/

/-- A Python float as it flows through this program: an exact rational
value or NaN. -/
inductive PyFloat where
  | num (q : ℚ)
  | nan
deriving DecidableEq

namespace PyFloat

/-- Comparison `x > c` of a Python float with a rational constant:
NaN compares false to everything. -/
def gtq : PyFloat → ℚ → Bool
  | num q, c => decide (c < q)
  | nan, _ => false

/-- Comparison `x < c` of a Python float with a rational constant:
NaN compares false to everything. -/
def ltq : PyFloat → ℚ → Bool
  | num q, c => decide (q < c)
  | nan, _ => false

/-- Equality test `x == c` of a Python float with a rational constant:
NaN is not equal to anything, itself included. -/
def eqq : PyFloat → ℚ → Bool
  | num q, c => decide (q = c)
  | nan, _ => false

/-- Python `abs` on floats: `abs(nan)` is NaN. -/
def pabs : PyFloat → PyFloat
  | num q => num |q|
  | nan => nan

end PyFloat

/-- Lines 127 to 130 of `statistics_and_trends.py` (inside `writing`): the
skewness classification.  `if abs(moments[2]) > 2:` chooses between
right- and left-skewed by the sign test `moments[2] > 0`; otherwise the
data is labelled not skewed. -/
def skew_type (s : PyFloat) : String :=
  if s.pabs.gtq 2 then
    if s.gtq 0 then "right-skewed" else "left-skewed"
  else "not skewed"

/-- Lines 132 to 137 of `statistics_and_trends.py` (inside `writing`): the
excess-kurtosis classification: negative is platykurtic, exactly zero is
mesokurtic, anything else (positive or NaN) is leptokurtic. -/
def kurtosis_type (k : PyFloat) : String :=
  if k.ltq 0 then "platykurtic"
  else if k.eqq 0 then "mesokurtic"
  else "leptokurtic"

/-- A column of the loaded table: pandas infers a numeric dtype (cells are
rationals or missing) or an object/text dtype. -/
inductive Column where
  | numeric (vals : List (Option ℚ))
  | text (vals : List String)
deriving DecidableEq

/-- The in-memory table: named columns in order, as loaded by
`pd.read_csv`. -/
abbrev DataFrame := List (String × Column)

/-- The uncaught Python exceptions the script can die with, by the library
call that raises them.  The design document calls `keyError` on a column
lookup `ColumnNotFoundError`, `typeError` on aggregating a non-numeric
column `ColumnNotNumericError`, the `read_csv` failures `DataLoadError`,
and a plot rendering failure `PlotRenderError`. -/
inductive PyError where
  | keyError (col : String)
  | typeError (col : String)
  | fileNotFound (path : String)
  | parserError (path : String)
  | renderError (plot : String)
deriving DecidableEq

/-- Arithmetic mean of a list of rationals (division by zero yields the
rational 0, but every use guards the empty case). -/
def listMean (p : List ℚ) : ℚ := p.sum / (p.length : ℚ)

/-- Sample variance with denominator n - 1, the square of what pandas
`Series.std()` returns with its default `ddof=1`. -/
def sampleVar (p : List ℚ) : ℚ :=
  ((p.map (fun x => (x - listMean p) ^ 2)).sum) / ((p.length : ℚ) - 1)

/-- The k-th central moment with denominator n (the biased estimator scipy
uses with its default `bias=True`). -/
def popMoment (k : ℕ) (p : List ℚ) : ℚ :=
  ((p.map (fun x => (x - listMean p) ^ k)).sum) / (p.length : ℚ)

/-- Line 79, `df[col].mean()`: pandas skips missing values
(`skipna=True` default) and returns NaN when no value remains. -/
def seriesMean (xs : List (Option ℚ)) : PyFloat :=
  let p := xs.filterMap id
  if p.length = 0 then .nan else .num (listMean p)

/-- Line 80, `df[col].std()`: pandas skips missing values and uses
denominator n - 1 (`ddof=1` default); with fewer than two values it
returns NaN.  `fsqrt` stands for the square root the library takes of the
sample variance. -/
def seriesStd (fsqrt : ℚ → ℚ) (xs : List (Option ℚ)) : PyFloat :=
  let p := xs.filterMap id
  if p.length ≤ 1 then .nan else .num (fsqrt (sampleVar p))

/-- Line 81, `ss.skew(df[col])`: scipy propagates NaN
(`nan_policy="propagate"` default), returns NaN for constant or empty
input, and otherwise the third standardized moment m3 / m2^(3/2);
`fsqrt` stands for the square root taken of m2^3. -/
def ssSkew (fsqrt : ℚ → ℚ) (xs : List (Option ℚ)) : PyFloat :=
  if none ∈ xs then .nan
  else
    let p := xs.filterMap id
    if popMoment 2 p = 0 then .nan
    else .num (popMoment 3 p / fsqrt (popMoment 2 p ^ 3))

/-- Line 82, `ss.kurtosis(df[col])`: scipy propagates NaN, returns NaN for
constant or empty input, and otherwise Fisher excess kurtosis
m4 / m2^2 - 3 (`fisher=True`, `bias=True` defaults). -/
def ssKurtosis (xs : List (Option ℚ)) : PyFloat :=
  if none ∈ xs then .nan
  else
    let p := xs.filterMap id
    if popMoment 2 p = 0 then .nan
    else .num (popMoment 4 p / popMoment 2 p ^ 2 - 3)

/-- Lines 74 to 83, `statistical_analysis(df, col)`: looks the column up
(`df[col]` raises KeyError when absent), aggregates it (pandas raises
TypeError on a non-numeric column), and returns the ordered 4-tuple
(mean, stddev, skewness, excess_kurtosis). -/
def statistical_analysis (fsqrt : ℚ → ℚ) (df : DataFrame) (col : String) :
    Except PyError (PyFloat × PyFloat × PyFloat × PyFloat) :=
  match df.lookup col with
  | none => .error (.keyError col)
  | some (.text _) => .error (.typeError col)
  | some (.numeric xs) =>
      .ok (seriesMean xs, seriesStd fsqrt xs, ssSkew fsqrt xs, ssKurtosis xs)

/-- An observable event of a run: a console print or a plot file write.
The console events record which block is printed; `corrPrint` records the
names of the columns the correlation matrix was restricted to. -/
inductive Event where
  | describePrint
  | headPrint
  | tailPrint
  | corrPrint (numericCols : List String)
  | savePlot (file : String)
  | attrPrint (col : String)
  | momentsPrint
  | interpPrint (skewLabel : String) (kurtLabel : String)
deriving DecidableEq

/-- Whether an event is console output (a plot file write is not). -/
def Event.isConsole : Event → Bool
  | .savePlot _ => false
  | _ => true

/-- Line 101, `df.select_dtypes(include=["number"])`: the names of the
numeric columns, in table order. -/
def numericNames (df : DataFrame) : List String :=
  (df.filter fun c => match c.2 with | .numeric _ => true | .text _ => false).map (·.1)

/-- Lines 86 to 105, `preprocessing(df)`: prints the description block,
the head rows, the tail rows and the correlation matrix restricted to the
numeric columns, in that order, and returns the dataframe itself. -/
def preprocessing (df : DataFrame) : DataFrame × List Event :=
  (df, [.describePrint, .headPrint, .tailPrint, .corrPrint (numericNames df)])

/-- Lines 108 to 140, `writing(moments, col)`: prints the attribute line,
the line with the four rounded moments, and the interpretation sentence
built from the two classifications of `moments[2]` and `moments[3]`. -/
def writing (moments : PyFloat × PyFloat × PyFloat × PyFloat) (col : String) :
    List Event :=
  [.attrPrint col, .momentsPrint,
   .interpPrint (skew_type moments.2.2.1) (kurtosis_type moments.2.2.2)]

/-- Lines 7 to 25, `plot_relational_plot(df)`: renders a scatter plot and
saves `relational_plot.png`.  `renderOk` is whether the external
seaborn/matplotlib calls succeed; on failure the uncaught exception
propagates and no file write happens. -/
def plot_relational_plot (renderOk : Bool) (df : DataFrame) :
    Except PyError (List Event) :=
  if renderOk then .ok [.savePlot "relational_plot.png"]
  else .error (.renderError "relational_plot")

/-- Lines 50 to 71, `plot_statistical_plot(df)`: renders a corner pair
plot and saves `statistical_plot.png`; on failure the exception
propagates. -/
def plot_statistical_plot (renderOk : Bool) (df : DataFrame) :
    Except PyError (List Event) :=
  if renderOk then .ok [.savePlot "statistical_plot.png"]
  else .error (.renderError "statistical_plot")

/-- Lines 28 to 47, `plot_categorical_plot(df)`: renders a box plot and
saves `categorical_plot.png`; on failure the exception propagates. -/
def plot_categorical_plot (renderOk : Bool) (df : DataFrame) :
    Except PyError (List Event) :=
  if renderOk then .ok [.savePlot "categorical_plot.png"]
  else .error (.renderError "categorical_plot")

/-- The environment of one run: the outcome of the external
`pd.read_csv("data.csv")` call (an error models a missing, unreadable or
malformed file), whether each of the three external render calls
succeeds, and the square root used by the statistics libraries. -/
structure Env where
  csv : Except PyError DataFrame
  relationalOk : Bool
  statisticalOk : Bool
  categoricalOk : Bool
  fsqrt : ℚ → ℚ

namespace Script

/-- Lines 143 to 174, `main()`: read the CSV, preprocess, render the
relational, statistical and categorical plots in that order, compute the
moments of the column "math score", and write the interpretation.  There
is no exception handler anywhere, so the first failing step ends the run:
the result is the list of events emitted before the failure together with
the uncaught exception, if any. -/
def main (env : Env) : List Event × Option PyError :=
  match env.csv with
  | .error e => ([], some e)
  | .ok df0 =>
    let dfpre := preprocessing df0
    match plot_relational_plot env.relationalOk dfpre.1 with
    | .error e => (dfpre.2, some e)
    | .ok p1 =>
      match plot_statistical_plot env.statisticalOk dfpre.1 with
      | .error e => (dfpre.2 ++ p1, some e)
      | .ok p2 =>
        match plot_categorical_plot env.categoricalOk dfpre.1 with
        | .error e => (dfpre.2 ++ p1 ++ p2, some e)
        | .ok p3 =>
          match statistical_analysis env.fsqrt dfpre.1 "math score" with
          | .error e => (dfpre.2 ++ p1 ++ p2 ++ p3, some e)
          | .ok moments =>
            (dfpre.2 ++ p1 ++ p2 ++ p3 ++ writing moments "math score", none)

end Script

/-- A concrete three-row table used by witnesses and counterexamples. -/
def dfEx : DataFrame :=
  [("math score", Column.numeric [some 1, some 2, some 3]),
   ("gender", Column.text ["female", "male", "female"])]

/-- The numeric column of `dfEx`. -/
def mathCol : List (Option ℚ) := [some 1, some 2, some 3]

/-- An environment whose external calls all succeed. -/
def envAllOk : Env :=
  { csv := Except.ok dfEx, relationalOk := true, statisticalOk := true,
    categoricalOk := true, fsqrt := fun q => q }

/-- An environment in which the relational render call fails. -/
def envPlotFail : Env :=
  { csv := Except.ok dfEx, relationalOk := false, statisticalOk := true,
    categoricalOk := true, fsqrt := fun q => q }

/-- An environment in which reading the CSV fails. -/
def envLoadFail : Env :=
  { csv := Except.error (PyError.fileNotFound "data.csv"), relationalOk := true,
    statisticalOk := true, categoricalOk := true, fsqrt := fun q => q }

/-- C1: for every skewness value s, the classification is right-skewed
if s > 2, left-skewed if s < -2, and not skewed otherwise; the boundary
is exclusive, so s = 2 and s = -2 are classified not skewed. -/
theorem c1_skew_classification :
    (∀ q : ℚ, skew_type (.num q) =
      if 2 < q then "right-skewed"
      else if q < -2 then "left-skewed"
      else "not skewed") ∧
    skew_type (.num 2) = "not skewed" ∧ skew_type (.num (-2)) = "not skewed" := by
  have h : ∀ q : ℚ, skew_type (.num q) =
      if 2 < q then "right-skewed"
      else if q < -2 then "left-skewed"
      else "not skewed" := by
    intro q
    simp only [skew_type, PyFloat.pabs, PyFloat.gtq, decide_eq_true_eq]
    rcases lt_trichotomy q 0 with hneg | rfl | hpos
    · rw [abs_of_neg hneg]
      split_ifs <;> first | rfl | linarith
    · norm_num
    · rw [abs_of_pos hpos]
      split_ifs <;> first | rfl | linarith
  refine ⟨h, ?_, ?_⟩
  · rw [h]; norm_num
  · rw [h]; norm_num

/-- C2: for every excess-kurtosis value k, the classification is
platykurtic if k < 0, mesokurtic if k is exactly 0, and leptokurtic if
k > 0. -/
theorem c2_kurtosis_classification :
    (∀ q : ℚ, kurtosis_type (.num q) =
      if q < 0 then "platykurtic"
      else if q = 0 then "mesokurtic"
      else "leptokurtic") ∧
    kurtosis_type (.num (-3/10)) = "platykurtic" ∧
    kurtosis_type (.num 0) = "mesokurtic" ∧
    kurtosis_type (.num (6/5)) = "leptokurtic" := by
  have h : ∀ q : ℚ, kurtosis_type (.num q) =
      if q < 0 then "platykurtic"
      else if q = 0 then "mesokurtic"
      else "leptokurtic" := by
    intro q
    simp only [kurtosis_type, PyFloat.ltq, PyFloat.eqq, decide_eq_true_eq]
  refine ⟨h, ?_, ?_, ?_⟩
  · rw [h]; norm_num
  · rw [h]; norm_num
  · rw [h]; norm_num

/-- C3: for every dataset and numeric target column, the analyzer returns
the ordered 4-tuple (mean, standard deviation, skewness, excess
kurtosis): the mean is the arithmetic mean of the present values, the
standard deviation is the square root of the sum of squared deviations
divided by n - 1, and the excess kurtosis is the fourth standardized
moment minus 3 (Fisher). -/
theorem c3_moment_analyzer (fsqrt : ℚ → ℚ) (df : DataFrame) (col : String)
    (xs : List (Option ℚ)) (hcol : df.lookup col = some (Column.numeric xs))
    (hn : 2 ≤ (xs.filterMap id).length) :
    ∃ m s sk k, statistical_analysis fsqrt df col = Except.ok (m, s, sk, k) ∧
      m = PyFloat.num ((xs.filterMap id).sum / ((xs.filterMap id).length : ℚ)) ∧
      s = PyFloat.num (fsqrt
        ((((xs.filterMap id).map
            (fun x => (x - (xs.filterMap id).sum / ((xs.filterMap id).length : ℚ)) ^ 2)).sum)
          / (((xs.filterMap id).length : ℚ) - 1))) ∧
      (none ∉ xs → popMoment 2 (xs.filterMap id) ≠ 0 →
        k = PyFloat.num
          ((((xs.filterMap id).map
              (fun x => (x - (xs.filterMap id).sum / ((xs.filterMap id).length : ℚ)) ^ 4)).sum
             / ((xs.filterMap id).length : ℚ))
            / ((((xs.filterMap id).map
              (fun x => (x - (xs.filterMap id).sum / ((xs.filterMap id).length : ℚ)) ^ 2)).sum)
             / ((xs.filterMap id).length : ℚ)) ^ 2
            - 3)) := by
  refine ⟨seriesMean xs, seriesStd fsqrt xs, ssSkew fsqrt xs, ssKurtosis xs,
    ?_, ?_, ?_, ?_⟩
  · unfold statistical_analysis
    rw [hcol]
  · have hne : ¬ ((xs.filterMap id).length = 0) := by omega
    simp only [seriesMean, listMean, hne, if_false]
  · have hle : ¬ ((xs.filterMap id).length ≤ 1) := by omega
    simp only [seriesStd, sampleVar, listMean, hle, if_false]
  · intro hmem hm2
    have h1 : ssKurtosis xs =
        if popMoment 2 (xs.filterMap id) = 0 then PyFloat.nan
        else PyFloat.num
          (popMoment 4 (xs.filterMap id) / popMoment 2 (xs.filterMap id) ^ 2 - 3) := by
      simp only [ssKurtosis, hmem, if_false]
    rw [h1, if_neg hm2]
    simp only [popMoment, listMean]

/-- C3 witness: the analyzer applied to the three-value column of `dfEx`
satisfies the hypotheses and the conclusion of `c3_moment_analyzer`. -/
theorem c3_moment_analyzer_witness :
    dfEx.lookup "math score" = some (Column.numeric mathCol) ∧
    2 ≤ (mathCol.filterMap id).length ∧
    (∃ m s sk k,
      statistical_analysis (fun q => q) dfEx "math score" = Except.ok (m, s, sk, k) ∧
      m = PyFloat.num ((mathCol.filterMap id).sum / ((mathCol.filterMap id).length : ℚ)) ∧
      s = PyFloat.num ((fun q => q)
        ((((mathCol.filterMap id).map
            (fun x => (x - (mathCol.filterMap id).sum / ((mathCol.filterMap id).length : ℚ)) ^ 2)).sum)
          / (((mathCol.filterMap id).length : ℚ) - 1))) ∧
      (none ∉ mathCol → popMoment 2 (mathCol.filterMap id) ≠ 0 →
        k = PyFloat.num
          ((((mathCol.filterMap id).map
              (fun x => (x - (mathCol.filterMap id).sum / ((mathCol.filterMap id).length : ℚ)) ^ 4)).sum
             / ((mathCol.filterMap id).length : ℚ))
            / ((((mathCol.filterMap id).map
              (fun x => (x - (mathCol.filterMap id).sum / ((mathCol.filterMap id).length : ℚ)) ^ 2)).sum)
             / ((mathCol.filterMap id).length : ℚ)) ^ 2
            - 3))) :=
  ⟨rfl, by decide, c3_moment_analyzer (fun q => q) dfEx "math score" mathCol rfl (by decide)⟩

/-- C4: requesting moments for an absent column fails with the lookup
error (the design documents ColumnNotFoundError) rather than returning a
partial result, and requesting moments on a non-numeric column fails with
the aggregation type error (ColumnNotNumericError). -/
theorem c4_column_errors (fsqrt : ℚ → ℚ) (df : DataFrame) (col : String) :
    (df.lookup col = none →
      statistical_analysis fsqrt df col = Except.error (PyError.keyError col)) ∧
    (∀ ts, df.lookup col = some (Column.text ts) →
      statistical_analysis fsqrt df col = Except.error (PyError.typeError col)) := by
  constructor
  · intro h
    unfold statistical_analysis
    rw [h]
  · intro ts h
    unfold statistical_analysis
    rw [h]

/-- C4 witness: on `dfEx`, the absent column "reading score" yields the
lookup error and the text column "gender" yields the type error. -/
theorem c4_column_errors_witness :
    (dfEx.lookup "reading score" = none ∧
      statistical_analysis (fun q => q) dfEx "reading score" =
        Except.error (PyError.keyError "reading score")) ∧
    (dfEx.lookup "gender" = some (Column.text ["female", "male", "female"]) ∧
      statistical_analysis (fun q => q) dfEx "gender" =
        Except.error (PyError.typeError "gender")) :=
  ⟨⟨rfl, (c4_column_errors (fun q => q) dfEx "reading score").1 rfl⟩,
   ⟨rfl, (c4_column_errors (fun q => q) dfEx "gender").2 ["female", "male", "female"] rfl⟩⟩

/-- C5 counterexample: in a run whose relational render call fails, the
whole pipeline crashes with the uncaught render error: the remaining two
plots are never saved and no interpretation is printed, contradicting the
claim that a failed plot is logged and execution continues. -/
theorem c5_plot_failure_counterexample :
    (Script.main envPlotFail).2 = some (PyError.renderError "relational_plot") ∧
    (Script.main envPlotFail).1 =
      [Event.describePrint, Event.headPrint, Event.tailPrint,
       Event.corrPrint ["math score"]] ∧
    Event.savePlot "statistical_plot.png" ∉ (Script.main envPlotFail).1 ∧
    Event.savePlot "categorical_plot.png" ∉ (Script.main envPlotFail).1 ∧
    Event.momentsPrint ∉ (Script.main envPlotFail).1 := by
  refine ⟨rfl, rfl, ?_, ?_, ?_⟩ <;> decide

/-- C5 amended: a failure of an underlying plot-rendering call is not
caught anywhere, so it aborts the run: the events emitted are exactly
those before the failing plot, the error propagates, and the remaining
plots, the moment computation and the report never happen. -/
theorem c5_plot_failure_aborts (env : Env) (df0 : DataFrame)
    (h : env.csv = Except.ok df0) :
    (env.relationalOk = false →
      Script.main env =
        ((preprocessing df0).2, some (PyError.renderError "relational_plot"))) ∧
    (env.relationalOk = true → env.statisticalOk = false →
      Script.main env =
        ((preprocessing df0).2 ++ [Event.savePlot "relational_plot.png"],
         some (PyError.renderError "statistical_plot"))) ∧
    (env.relationalOk = true → env.statisticalOk = true →
      env.categoricalOk = false →
      Script.main env =
        ((preprocessing df0).2 ++ [Event.savePlot "relational_plot.png"] ++
           [Event.savePlot "statistical_plot.png"],
         some (PyError.renderError "categorical_plot"))) := by
  refine ⟨?_, ?_, ?_⟩
  · intro h1
    simp [Script.main, h, h1, plot_relational_plot]
  · intro h1 h2
    simp [Script.main, h, h1, h2, plot_relational_plot, plot_statistical_plot]
  · intro h1 h2 h3
    simp [Script.main, h, h1, h2, h3, plot_relational_plot, plot_statistical_plot,
      plot_categorical_plot]

/-- C5 witness for the amended claim: the concrete environment whose
relational render call fails satisfies the hypotheses, and the run aborts
with the render error right after preprocessing. -/
theorem c5_plot_failure_aborts_witness :
    envPlotFail.csv = Except.ok dfEx ∧ envPlotFail.relationalOk = false ∧
    Script.main envPlotFail =
      ((preprocessing dfEx).2, some (PyError.renderError "relational_plot")) :=
  ⟨rfl, rfl, (c5_plot_failure_aborts envPlotFail dfEx rfl).1 rfl⟩

/-- C6: when reading the input file fails (missing, unreadable or
malformed data.csv), the error propagates out of `main` and the run emits
no event at all: it aborts before any analysis. -/
theorem c6_load_failure_aborts (env : Env) (e : PyError)
    (h : env.csv = Except.error e) :
    Script.main env = ([], some e) := by
  simp only [Script.main, h]

/-- C6 witness: an environment whose CSV read fails with a missing-file
error satisfies the hypothesis, and the run aborts with it before
emitting anything. -/
theorem c6_load_failure_aborts_witness :
    envLoadFail.csv = Except.error (PyError.fileNotFound "data.csv") ∧
    Script.main envLoadFail = ([], some (PyError.fileNotFound "data.csv")) :=
  ⟨rfl, c6_load_failure_aborts envLoadFail (PyError.fileNotFound "data.csv") rfl⟩

/-- C7: the preprocessor only prints; it returns the very dataset it was
given, so the table handed on to the plot generators and the moment
analyzer is the one produced by the loader. -/
theorem c7_preprocessing_returns_dataset_unchanged (df : DataFrame) :
    (preprocessing df).1 = df := rfl

/-- C8: in a fully successful run, the console output consists, in order,
of the description block, the head rows, the tail rows, the correlation
matrix restricted to the numeric columns, and finally the report of the
moments of the designated column "math score", whose interpretation
sentence comes last. -/
theorem c8_console_output_order (env : Env) (df0 : DataFrame)
    (m : PyFloat × PyFloat × PyFloat × PyFloat)
    (h : env.csv = Except.ok df0) (h1 : env.relationalOk = true)
    (h2 : env.statisticalOk = true) (h3 : env.categoricalOk = true)
    (hm : statistical_analysis env.fsqrt df0 "math score" = Except.ok m) :
    (Script.main env).1.filter Event.isConsole =
      [Event.describePrint, Event.headPrint, Event.tailPrint,
       Event.corrPrint (numericNames df0), Event.attrPrint "math score",
       Event.momentsPrint,
       Event.interpPrint (skew_type m.2.2.1) (kurtosis_type m.2.2.2)] := by
  simp [Script.main, h, h1, h2, h3, plot_relational_plot, plot_statistical_plot,
    plot_categorical_plot, preprocessing, writing, hm, Event.isConsole]

/-- C8 witness: the all-successful environment over `dfEx` satisfies the
hypotheses, and its console output is exactly the five blocks in the
stated order. -/
theorem c8_console_output_order_witness :
    envAllOk.csv = Except.ok dfEx ∧
    envAllOk.relationalOk = true ∧ envAllOk.statisticalOk = true ∧
    envAllOk.categoricalOk = true ∧
    statistical_analysis envAllOk.fsqrt dfEx "math score" =
      Except.ok (seriesMean mathCol, seriesStd envAllOk.fsqrt mathCol,
        ssSkew envAllOk.fsqrt mathCol, ssKurtosis mathCol) ∧
    (Script.main envAllOk).1.filter Event.isConsole =
      [Event.describePrint, Event.headPrint, Event.tailPrint,
       Event.corrPrint (numericNames dfEx), Event.attrPrint "math score",
       Event.momentsPrint,
       Event.interpPrint (skew_type (ssSkew envAllOk.fsqrt mathCol))
         (kurtosis_type (ssKurtosis mathCol))] :=
  ⟨rfl, rfl, rfl, rfl, rfl,
   c8_console_output_order envAllOk dfEx
     (seriesMean mathCol, seriesStd envAllOk.fsqrt mathCol,
      ssSkew envAllOk.fsqrt mathCol, ssKurtosis mathCol) rfl rfl rfl rfl rfl⟩

/-- C9: the moment analyzer is a pure function, and preprocessing hands
the dataset on unchanged, so running the analyzer a second time after the
reporting pass on the same dataset and column returns the identical
moments tuple. -/
theorem c9_moment_analyzer_idempotent (fsqrt : ℚ → ℚ) (df : DataFrame)
    (col : String) :
    statistical_analysis fsqrt ((preprocessing df).1) col =
      statistical_analysis fsqrt df col := rfl

/-- C10: a NaN skewness entry is classified not skewed (the test
abs(nan) > 2 is false) and a NaN excess-kurtosis entry is classified
leptokurtic (both nan < 0 and nan == 0 are false, so the final branch is
taken); and whenever the analyzed column contains a missing value, the
skewness and kurtosis computations propagate NaN, so these are exactly
the labels reported. -/
theorem c10_nan_moments_classification (fsqrt : ℚ → ℚ)
    (xs : List (Option ℚ)) (h : none ∈ xs) :
    skew_type PyFloat.nan = "not skewed" ∧
    kurtosis_type PyFloat.nan = "leptokurtic" ∧
    ssSkew fsqrt xs = PyFloat.nan ∧
    ssKurtosis xs = PyFloat.nan ∧
    skew_type (ssSkew fsqrt xs) = "not skewed" ∧
    kurtosis_type (ssKurtosis xs) = "leptokurtic" := by
  have hsk : ssSkew fsqrt xs = PyFloat.nan := by simp [ssSkew, h]
  have hku : ssKurtosis xs = PyFloat.nan := by simp [ssKurtosis, h]
  refine ⟨by decide, by decide, hsk, hku, ?_, ?_⟩
  · rw [hsk]
    decide
  · rw [hku]
    decide

/-- C10 witness: the one-cell column holding a missing value satisfies
the hypothesis, the analyzer moments for skewness and kurtosis are NaN,
and the reported labels are not skewed and leptokurtic. -/
theorem c10_nan_moments_classification_witness :
    none ∈ ([none] : List (Option ℚ)) ∧
    (skew_type PyFloat.nan = "not skewed" ∧
     kurtosis_type PyFloat.nan = "leptokurtic" ∧
     ssSkew (fun q => q) [none] = PyFloat.nan ∧
     ssKurtosis [none] = PyFloat.nan ∧
     skew_type (ssSkew (fun q => q) [none]) = "not skewed" ∧
     kurtosis_type (ssKurtosis [none]) = "leptokurtic") :=
  ⟨List.mem_singleton.mpr rfl,
   c10_nan_moments_classification (fun q => q) [none] (List.mem_singleton.mpr rfl)⟩
